import Mathlib

/-
Verification development for the query-criteria algebra and multi-backend
persistence layer of the hexy repository.

Shallow embedding conventions, used uniformly below:
- Python strings are Lean String, Python lists are Lean List, Python dicts
  (which preserve insertion order) are association lists List (String x String).
- Fallible Python code is embedded as Except PyError.
- The repository snapshot contains two generations of the value-object base
  classes; the older base (exposing a value attribute) is absent from the
  sources, so attribute access on a validated atomic wrapper is embedded as
  projection of its stored payload (spec section 3 describes the wrappers as
  validated atomic wrappers around their payload).  All query-building,
  normalization and translation logic is translated directly from the
  source files, never from the specification text.
-/

namespace Hexy

/-- Python runtime errors that the embedded code can raise. -/
inductive PyError where
  | attributeError (typeName attrName : String)
  | keyError (key : String)
  | invalidArgument (message : String)
deriving DecidableEq, Repr

/-- Domain of Python values accepted by the FilterValue constructors:
a string, a boolean, a list of strings, or the absent value None. -/
inductive PyVal where
  | pstr (s : String)
  | pbool (b : Bool)
  | plist (xs : List String)
  | pnone
deriving DecidableEq, Repr

namespace FilterValue

/-- Embeds FilterValue.__init__ from
src/src/shared/domain/criteria/filter/filter_value.py: a bool is replaced by
str(value), a list is replaced by a comma join of its elements, None is
replaced by the string NULL, and the resulting string is stored. -/
def init : PyVal → String
  | .pbool b => if b then "True" else "False"
  | .plist xs => String.intercalate "," xs
  | .pnone => "NULL"
  | .pstr s => s

/-- Embeds the static method FilterValue.create from
src/hexy/python/src/shared/domain/criteria/filter/filter_value.py: None maps
to the string null, a list or tuple maps to a comma join of str of its
elements (identity on string elements), and any other value maps to
str(value). -/
def create : PyVal → String
  | .pnone => "null"
  | .plist xs => String.intercalate "," xs
  | .pstr s => s
  | .pbool b => if b then "True" else "False"

end FilterValue

/-- Embeds the Operator enum of
src/hexy/python/src/shared/domain/criteria/filter/filter_operator.py. -/
inductive Operator where
  | EQUAL
  | NOT_EQUAL
  | GT
  | LT
  | CONTAINS
  | IN
  | GTE
  | LTE
  | BEGINS_WITH
  | LIKE
  | NOT_LIKE
  | NOT_IN
deriving DecidableEq, Repr

/-- String value carried by each Operator enum member, as declared in the
Operator enum of filter_operator.py. -/
def opValue : Operator → String
  | .EQUAL => "="
  | .NOT_EQUAL => "!="
  | .GT => ">"
  | .LT => "<"
  | .CONTAINS => "CONTAINS"
  | .IN => "IN"
  | .GTE => ">="
  | .LTE => "<="
  | .BEGINS_WITH => "BEGINS_WITH"
  | .LIKE => "LIKE"
  | .NOT_LIKE => "NOT LIKE"
  | .NOT_IN => "NOT IN"

/-- Embeds a Filter triple: validated field name, operator and normalized
value payload (the stored string of its FilterValue, see FilterValue.init and
FilterValue.create). -/
structure FilterT where
  field : String
  operator : Operator
  value : String
deriving DecidableEq, Repr

namespace Filters

/-- Embeds Filters.has from src/src/shared/domain/criteria/filters.py:
any(f.field.value == filter_name for f in self._filters). -/
def has (fs : List FilterT) (filter_name : String) : Bool :=
  fs.any (fun f => f.field == filter_name)

/-- Embeds Filters.exclude from src/src/shared/domain/criteria/filters.py:
Filters([f for f in self._filters if f.field.value != filter_name]). -/
def exclude (fs : List FilterT) (filter_name : String) : List FilterT :=
  fs.filter (fun f => f.field != filter_name)

/-- Embeds Filters.get from src/src/shared/domain/criteria/filters.py:
next((f for f in self._filters if f.field.value == filter_name), None). -/
def get (fs : List FilterT) (filter_name : String) : Option FilterT :=
  fs.find? (fun f => f.field == filter_name)

end Filters

/-- Embeds the FilterField wrapper object used by the hexy tree: a value
object holding the field name string. -/
structure FilterFieldV where
  value : String
deriving DecidableEq, Repr

/-- Embeds the Python comparison between a FilterField value object and a raw
string, as performed by has, get, exclude and remove in
src/hexy/python/src/shared/domain/criteria/filter/filters.py (they compare
f.field == filter_name where filter_name is a str).  ValueObject.__eq__ in
src/hexy/python/src/shared/domain/value_object/value_object.py returns
NotImplemented when the other operand is not an instance of the same type,
str.__eq__ likewise returns NotImplemented for a non-str operand, and CPython
then falls back to identity, which never holds between a wrapper instance and
a str.  The comparison is therefore always False. -/
def pyEqFieldStr (_f : FilterFieldV) (_s : String) : Bool := false

/-- Embeds the hexy Filter frozen dataclass of
src/hexy/python/src/shared/domain/criteria/filter/filter.py, which stores the
wrapped field object together with operator and normalized value. -/
structure HexyFilter where
  fieldObj : FilterFieldV
  operator : Operator
  value : String
deriving DecidableEq, Repr

namespace HexyFilters

/-- Embeds Filters.has from
src/hexy/python/src/shared/domain/criteria/filter/filters.py:
any(f.field == filter_name for f in self.filters), with the wrapper-to-string
comparison embedded by pyEqFieldStr. -/
def has (fs : List HexyFilter) (filter_name : String) : Bool :=
  fs.any (fun f => pyEqFieldStr f.fieldObj filter_name)

/-- Embeds Filters.get from the same file:
next((f for f in self.filters if f.field == filter_name), None). -/
def get (fs : List HexyFilter) (filter_name : String) : Option HexyFilter :=
  fs.find? (fun f => pyEqFieldStr f.fieldObj filter_name)

/-- Embeds Filters.exclude from the same file:
Filters(filters=[f for f in self.filters if f.field != filter_name]).
The inequality is the negation of the embedded comparison. -/
def exclude (fs : List HexyFilter) (filter_name : String) : List HexyFilter :=
  fs.filter (fun f => !(pyEqFieldStr f.fieldObj filter_name))

end HexyFilters

/-- Embeds OPERATOR_MAPPING of
src/hexy/python/src/shared/infrastructure/repository/dynamodb/dynamodb_criteria_converter.py.
The dict maps ten of the twelve operators to converter tags; GT and LIKE have
no entry, so looking them up raises KeyError. -/
def OPERATOR_MAPPING : Operator → Option String
  | .EQUAL => some "eq"
  | .NOT_EQUAL => some "ne"
  | .GTE => some "gte"
  | .LTE => some "lte"
  | .LT => some "lt"
  | .CONTAINS => some "contains"
  | .BEGINS_WITH => some "begins_with"
  | .IN => some "in"
  | .NOT_LIKE => some "not_like"
  | .NOT_IN => some "not_in"
  | .GT => none
  | .LIKE => none

/-- Native query artifact emitted by DynamoDBCriteriaConverter.convert: the
dict with keys FilterExpression, ExpressionAttributeNames and
ExpressionAttributeValues (the two maps are insertion-ordered dicts, embedded
as association lists). -/
structure DynamoArtifact where
  FilterExpression : String
  ExpressionAttributeNames : List (String × String)
  ExpressionAttributeValues : List (String × String)
deriving DecidableEq, Repr

/-- Embeds the filter loop of DynamoDBCriteriaConverter.convert.  For the
filter at position index: the operator is looked up in OPERATOR_MAPPING
(KeyError when absent), one attribute-name placeholder and one
attribute-value placeholder are recorded, and the expression is chosen by the
if-elif chain of the source.  In the in branch the source iterates
enumerate(value) where value is the normalized FilterValue payload, a string,
so the iteration ranges over the characters of that string; operator tags
that reach the end of the chain (not_like and not_in) append no expression.
Returns the expression list, the names map and the values map. -/
def dynamoConvertLoop :
    Nat → List FilterT →
    Except PyError (List String × List (String × String) × List (String × String))
  | _, [] => .ok ([], [], [])
  | index, filter_item :: rest =>
    match OPERATOR_MAPPING filter_item.operator with
    | none => .error (.keyError (opValue filter_item.operator))
    | some operator =>
      let placeholder_name := "#attr" ++ toString index
      let placeholder_value := ":val" ++ toString index
      let chars := filter_item.value.toList
      let placeholder_list :=
        String.intercalate ", "
          (chars.enum.map (fun p => placeholder_value ++ "_" ++ toString p.1))
      let inEntries :=
        chars.enum.map
          (fun p => (placeholder_value ++ "_" ++ toString p.1, String.singleton p.2))
      let exprs :=
        if operator == "eq" then
          [placeholder_name ++ " = " ++ placeholder_value]
        else if operator == "ne" then
          [placeholder_name ++ " <> " ++ placeholder_value]
        else if operator == "gt" || operator == "gte" ||
            operator == "lt" || operator == "lte" then
          [placeholder_name ++ " " ++ operator ++ " " ++ placeholder_value]
        else if operator == "contains" then
          ["contains(" ++ placeholder_name ++ ", " ++ placeholder_value ++ ")"]
        else if operator == "begins_with" then
          ["begins_with(" ++ placeholder_name ++ ", " ++ placeholder_value ++ ")"]
        else if operator == "in" then
          [placeholder_name ++ " IN (" ++ placeholder_list ++ ")"]
        else []
      let valueEntries :=
        (placeholder_value, filter_item.value) ::
          (if operator == "in" then inEntries else [])
      match dynamoConvertLoop (index + 1) rest with
      | .error e => .error e
      | .ok (es, ns, vs) =>
        .ok (exprs ++ es, (placeholder_name, filter_item.field) :: ns, valueEntries ++ vs)

/-- Embeds DynamoDBCriteriaConverter.convert applied to the filters of a
Criteria: runs the filter loop and joins the collected expressions with AND
into the emitted artifact.  The order branch of the source is a pass
statement and contributes nothing. -/
def dynamoConvert (criteria_filters : List FilterT) : Except PyError DynamoArtifact :=
  match dynamoConvertLoop 0 criteria_filters with
  | .error e => .error e
  | .ok (es, ns, vs) => .ok ⟨String.intercalate " AND " es, ns, vs⟩

/-- Command sent to a relational DataSource: the rendered query text plus the
positional arguments passed alongside it (the *args of execute and fetch). -/
structure SqlCommand where
  text : String
  params : List String
deriving DecidableEq, Repr

namespace MySQLRepository

/-- Embeds MySQLRepository.save of
src/hexy/python/src/shared/infrastructure/repository/mysql/mysql_repository.py:
the INSERT statement is built by f-string interpolation of the mapped record
keys and values, and execute receives no positional arguments.
PostgresRepository.save renders the identical text. -/
def saveCommand (table_name : String) (data : List (String × String)) : SqlCommand :=
  ⟨"INSERT INTO " ++ table_name ++ " (" ++
      String.intercalate ", " (data.map Prod.fst) ++ ") VALUES (" ++
      String.intercalate ", " (data.map Prod.snd) ++ ")",
    []⟩

/-- Embeds the command of MySQLRepository.search_by_id: the identifier is
passed as the positional bound parameter of placeholder number 1. -/
def searchByIdCommand (table_name identifier : String) : SqlCommand :=
  ⟨"SELECT * FROM " ++ table_name ++ " WHERE id = $1", [identifier]⟩

/-- Embeds the command of MySQLRepository.search_all. -/
def searchAllCommand (table_name : String) : SqlCommand :=
  ⟨"SELECT * FROM " ++ table_name, []⟩

/-- Embeds the command of MySQLRepository.matching: the criteria object is
interpolated directly into the query text by the f-string (criteriaText is
the str rendering of the criteria, produced by Python), and fetch receives no
positional arguments.  PostgresRepository.matching renders the identical
text. -/
def matchingCommand (table_name criteriaText : String) : SqlCommand :=
  ⟨"SELECT * FROM " ++ table_name ++ " WHERE " ++ criteriaText, []⟩

/-- Embeds the command of MySQLRepository.delete: the identifier is passed as
a positional bound parameter. -/
def deleteCommand (table_name identifier : String) : SqlCommand :=
  ⟨"DELETE FROM " ++ table_name ++ " WHERE id = $1", [identifier]⟩

/-- Embeds MySQLRepository.search_all over an abstract DataSource fetch
function and mapper: fetch the search-all command and map every returned row
to an aggregate. -/
def searchAllRows (fetch : SqlCommand → List Nat) (to_aggregate : Nat → Nat)
    (table_name : String) : List Nat :=
  (fetch (searchAllCommand table_name)).map to_aggregate

/-- Embeds MySQLRepository.matching over an abstract DataSource fetch
function and mapper: fetch the matching command and map every returned row to
an aggregate. -/
def matchingRows (fetch : SqlCommand → List Nat) (to_aggregate : Nat → Nat)
    (table_name criteriaText : String) : List Nat :=
  (fetch (matchingCommand table_name criteriaText)).map to_aggregate

end MySQLRepository

/-- Concrete DataSource behavior used to compare search_all with matching: a
backend holding one table named users with a single row, which answers the
well-formed unfiltered query and returns nothing for any other command text
(a real MySQL backend would reject a malformed WHERE clause outright). -/
def fetchUsersOnly : SqlCommand → List Nat :=
  fun cmd => if cmd.text == "SELECT * FROM users" then [7] else []

/-- Embeds the OrderTypes enum of
src/src/shared/domain/criteria/order/order_type.py. -/
inductive OrderTypeT where
  | ASC
  | DESC
  | NONE
deriving DecidableEq, Repr

/-- Embeds the Order dataclass of
src/src/shared/domain/criteria/order/order.py: an OrderBy field string
together with an OrderType. -/
structure OrderV where
  order_by : String
  order_type : OrderTypeT
deriving DecidableEq, Repr

/-- Embeds Order.none: OrderBy is the empty string and OrderType is NONE. -/
def orderNone : OrderV := ⟨"", .NONE⟩

/-- Embeds OrderType.from_value of
src/src/shared/domain/criteria/order/order_type.py: ASC and DESC are
recognized (OrderTypes is a str enum, so comparing the argument with a member
compares the underlying strings) and every other string raises
InvalidArgumentError with the message of the source. -/
def orderTypeFromValue (value : String) : Except PyError OrderTypeT :=
  if value == "ASC" then .ok .ASC
  else if value == "DESC" then .ok .DESC
  else .error (.invalidArgument ("El tipo de orden " ++ value ++ " es inválido"))

/-- Embeds Order.from_values of
src/src/shared/domain/criteria/order/order.py: a falsy order_by (None or the
empty string) yields Order.none; otherwise the order type string (with a
falsy value replaced by ASC) goes through OrderType.from_value, and when a
non-empty whitelist is supplied every comma-separated order_by field must be
a member (the constructor skips validation for a falsy whitelist). -/
def orderFromValues (order_by order_type : Option String)
    (valid_order_by_fields : Option (List String)) : Except PyError OrderV :=
  match order_by with
  | none => .ok orderNone
  | some ob =>
    if ob == "" then .ok orderNone
    else
      let otv :=
        match order_type with
        | none => "ASC"
        | some t => if t == "" then "ASC" else t
      match orderTypeFromValue otv with
      | .error e => .error e
      | .ok ty =>
        match valid_order_by_fields with
        | none => .ok ⟨ob, ty⟩
        | some vf =>
          if vf.isEmpty then .ok ⟨ob, ty⟩
          else if (ob.splitOn ",").all (fun fld => vf.contains fld) then .ok ⟨ob, ty⟩
          else .error (.invalidArgument ("Campo de ordenamiento inválido: " ++ ob))

/-- Embeds the Criteria dataclass of
src/src/shared/domain/criteria/criteria.py: filters, order, optional limit
and offset, and the ordered list of nested alternative criteria. -/
inductive CriteriaT where
  | mk (filters : List FilterT) (order : OrderV) (limit offset : Option Nat)
      (or_criteria : List CriteriaT)

namespace CriteriaT

/-- Filters collection of a criteria node. -/
def filtersOf : CriteriaT → List FilterT
  | .mk fs _ _ _ _ => fs

/-- Nested alternative criteria of a node. -/
def orCriteriaOf : CriteriaT → List CriteriaT
  | .mk _ _ _ _ cs => cs

/-- Embeds the call c.clone() issued by Criteria.copy on every member of
or_criteria.  The Criteria class of
src/src/shared/domain/criteria/criteria.py declares no clone method, it has
no base class, and no definition of clone exists anywhere in the repository,
so Python attribute lookup raises AttributeError on every criteria object. -/
def clone (_c : CriteriaT) : Except PyError CriteriaT :=
  .error (.attributeError "Criteria" "clone")

/-- Embeds Criteria.copy of src/src/shared/domain/criteria/criteria.py
without keyword overrides: the copy keeps filters, order, limit and offset,
and rebuilds or_criteria as [c.clone() for c in (self.or_criteria or [])]. -/
def copy : CriteriaT → Except PyError CriteriaT
  | .mk fs o l off cs =>
    match cs.mapM clone with
    | .error e => .error e
    | .ok cloned => .ok (.mk fs o l off cloned)

/-- Embeds Criteria.remove_filter of
src/src/shared/domain/criteria/criteria.py: the local filters collection is
replaced by self.filters.exclude(filter_name) and remove_filter recurses into
every member of or_criteria. -/
def remove_filter (filter_name : String) : CriteriaT → CriteriaT
  | .mk fs o l off cs =>
    .mk (Filters.exclude fs filter_name) o l off
      (cs.attach.map fun c => remove_filter filter_name c.1)
decreasing_by
  have := List.sizeOf_lt_of_mem c.2
  simp at this ⊢
  omega

/-- Model helper, not from the source: lists a criteria node together with
all of its descendants, used to state tree-wide properties. -/
def allNodes : CriteriaT → List CriteriaT
  | t@(.mk _ _ _ _ cs) => t :: (cs.attach.map fun c => allNodes c.1).flatten
decreasing_by
  have := List.sizeOf_lt_of_mem c.2
  simp at this ⊢
  omega

end CriteriaT

/-- Program counter of one task running MySQLDataSource._ensure_connection of
src/hexy/python/src/shared/infrastructure/datasource/mysql_datasource.py.
A task at start is about to evaluate the check if not self._conn; a task at
connecting has passed the check and is suspended inside await
aiomysql.connect; a finished task is done. -/
inductive TaskPC where
  | start
  | connecting
  | done
deriving DecidableEq, Repr

/-- Shared state of a MySQLDataSource instance together with the progress of
two concurrent first-use tasks: the nullable connection slot, the number of
connection-establishment calls issued so far, and both program counters. -/
structure DSState where
  conn : Option Nat
  connectCalls : Nat
  pcA : TaskPC
  pcB : TaskPC
deriving DecidableEq, Repr

/-- Fresh MySQLDataSource: the constructor sets the connection slot to None;
no connect call has happened and both tasks are before the check. -/
def dsInit : DSState := ⟨none, 0, .start, .start⟩

/-- Advances the selected task by one atomic step of _ensure_connection.  At
start the task evaluates if not self._conn: with an empty slot it proceeds
toward connect, otherwise it is done and reuses the connection.  At
connecting the suspended await aiomysql.connect returns: the call counter
increases and the fresh connection object is assigned to the slot
(overwriting whatever is there, exactly as the assignment in the source).
The check and the assignment are separated by the await suspension point, so
other tasks may run in between: that interleaving is expressed by the
schedule argument of dsRun. -/
def dsStep (s : DSState) (t : Bool) : DSState :=
  match (if t then s.pcB else s.pcA) with
  | .start =>
    let next := if s.conn.isNone then TaskPC.connecting else TaskPC.done
    if t then { s with pcB := next } else { s with pcA := next }
  | .connecting =>
    let s2 := { s with conn := some (s.connectCalls + 1),
                       connectCalls := s.connectCalls + 1 }
    if t then { s2 with pcB := .done } else { s2 with pcA := .done }
  | .done => s

/-- Runs a schedule: each entry names the task that performs the next atomic
step. -/
def dsRun (s : DSState) (schedule : List Bool) : DSState :=
  schedule.foldl dsStep s

/-- Helper: OrderType.from_value never returns the NONE member. -/
theorem orderTypeFromValue_not_NONE (v : String) (ty : OrderTypeT)
    (h : orderTypeFromValue v = .ok ty) : ty ≠ .NONE := by
  unfold orderTypeFromValue at h
  split_ifs at h <;> simp_all <;> subst h <;> decide

/-- C1: the claim states that save and matching pass filter and record values
only as positional bound parameters and never concatenate them into the query
text.  Evaluating the embedded MySQLRepository.save command on a concrete
record shows the values 18 and A% inlined verbatim in the INSERT text with an
empty parameter list, and every matching command likewise carries an empty
parameter list while interpolating the criteria rendering into the text; only
search_by_id binds its argument as a parameter. -/
theorem C1_save_and_matching_inline_values :
    MySQLRepository.saveCommand "users" [("age", "18"), ("name", "A%")] =
      ⟨"INSERT INTO users (age, name) VALUES (18, A%)", []⟩ ∧
    (∀ criteriaText : String,
      (MySQLRepository.matchingCommand "users" criteriaText).params = []) ∧
    MySQLRepository.searchByIdCommand "users" "42" =
      ⟨"SELECT * FROM users WHERE id = $1", ["42"]⟩ := by
  exact ⟨rfl, fun _ => rfl, rfl⟩

/-- C2: the claim states that converting a Criteria whose single filter is
(status, IN, [a, b, c]) yields an ExpressionAttributeValues map with exactly
3 entries referenced by the filter expression.  Evaluating the embedded
converter shows that FilterValue.create flattens the list to the string
a,b,c, so the value map receives the joined string plus one entry per
character of it: 6 entries, with 5 per-character placeholders referenced in
the expression. -/
theorem C2_in_filter_value_map :
    dynamoConvert [⟨"status", .IN, FilterValue.create (.plist ["a", "b", "c"])⟩] =
      .ok ⟨"#attr0 IN (:val0_0, :val0_1, :val0_2, :val0_3, :val0_4)",
        [("#attr0", "status")],
        [(":val0", "a,b,c"), (":val0_0", "a"), (":val0_1", ","), (":val0_2", "b"),
          (":val0_3", ","), (":val0_4", "c")]⟩ ∧
    FilterValue.create (.plist ["a", "b", "c"]) = "a,b,c" := by
  exact ⟨rfl, rfl⟩

/-- C3: the claim states that copy returns a fully independent deep clone
including cloned or_criteria descendants.  Evaluating the embedded
Criteria.copy shows that it raises AttributeError on any criteria with a
non-empty or_criteria list, because it invokes clone on every child and the
Criteria class defines no clone method; only a criteria without descendants
is copied. -/
theorem C3_copy_raises_on_or_criteria :
    CriteriaT.copy (.mk [] orderNone none none [.mk [] orderNone none none []]) =
      .error (.attributeError "Criteria" "clone") ∧
    CriteriaT.copy (.mk [⟨"age", .GTE, "18"⟩] orderNone (some 10) (some 0) []) =
      .ok (.mk [⟨"age", .GTE, "18"⟩] orderNone (some 10) (some 0) []) := by
  exact ⟨rfl, rfl⟩

/-- C4: remove_filter removes every filter on the given field from the node
itself and, recursively, from every or_criteria descendant: after the call no
node of the whole tree carries a filter on that field. -/
theorem C4_remove_filter_removes_everywhere (filter_name : String) (c : CriteriaT) :
    ((CriteriaT.remove_filter filter_name c).allNodes).all
      (fun d => (d.filtersOf).all (fun f => f.field != filter_name)) = true := by
  induction c using CriteriaT.remove_filter.induct filter_name with
  | _ fs o l off cs ih =>
    rw [CriteriaT.remove_filter, CriteriaT.allNodes]
    simp only [List.all_cons, List.all_eq_true, Bool.and_eq_true, List.mem_flatten,
      List.mem_map, List.mem_attach, true_and, Subtype.exists]
    constructor
    · simp [CriteriaT.filtersOf, Filters.exclude, List.mem_filter]
    · rintro d ⟨l2, ⟨x, hx, rfl⟩, hd⟩
      obtain ⟨a, ha, rfl⟩ := hx
      have := ih ⟨a, ha⟩
      simp only [List.all_eq_true] at this
      exact this d hd

/-- C5: the claim states that an operator unsupported by the backend fails
fast with a named unsupported-operator error and that no filter predicate is
ever silently dropped from the emitted artifact.  Evaluating the embedded
DynamoDB converter shows that a NOT LIKE or NOT IN filter is accepted by
OPERATOR_MAPPING but handled by no branch of the expression chain, so the
converter returns an artifact whose FilterExpression is empty: the predicate
is silently dropped.  A GT or LIKE filter is absent from OPERATOR_MAPPING, so
conversion raises a bare KeyError rather than a named unsupported-operator
error. -/
theorem C5_unsupported_operators_mishandled :
    dynamoConvert [⟨"age", .NOT_LIKE, "x"⟩] =
      .ok ⟨"", [("#attr0", "age")], [(":val0", "x")]⟩ ∧
    dynamoConvert [⟨"name", .LIKE, "A%"⟩] = .error (.keyError "LIKE") ∧
    dynamoConvert [⟨"age", .GT, "18"⟩] = .error (.keyError ">") ∧
    dynamoConvert [⟨"status", .NOT_IN, FilterValue.create (.plist ["a", "b"])⟩] =
      .ok ⟨"", [("#attr0", "status")], [(":val0", "a,b")]⟩ := by
  exact ⟨rfl, rfl, rfl, rfl⟩

/-- C6 counterexample: the claim states that a list value is retained as an
ordered value set, not flattened, and that a boolean keeps its original typed
value alongside the textual form.  In both FilterValue constructors a list
collapses to the same stored string as its pre-joined rendering, and a
boolean collapses to the same stored string as its textual form; nothing but
that single string is stored. -/
theorem C6_counterexample :
    FilterValue.init (.plist ["a", "b"]) = FilterValue.init (.pstr "a,b") ∧
    FilterValue.create (.plist ["a", "b", "c"]) = FilterValue.create (.pstr "a,b,c") ∧
    FilterValue.init (.pbool true) = FilterValue.init (.pstr "True") ∧
    FilterValue.create (.pbool true) = FilterValue.create (.pstr "True") := by
  exact ⟨rfl, rfl, rfl, rfl⟩

/-- C6 amended: FilterValue construction normalizes every input to a single
stored string: a list is flattened to the comma join of its members, an
absent value becomes the explicit null sentinel (spelled NULL by the
dataclass constructor and null by the static create), and a boolean is stored
as its textual form only; on every non-absent input the two constructors
agree. -/
theorem C6_normalization_amended :
    (∀ v : PyVal, v ≠ .pnone → FilterValue.init v = FilterValue.create v) ∧
    FilterValue.init .pnone = "NULL" ∧
    FilterValue.create .pnone = "null" ∧
    (∀ xs : List String,
      FilterValue.init (.plist xs) =
        FilterValue.init (.pstr (String.intercalate "," xs)) ∧
      FilterValue.create (.plist xs) =
        FilterValue.create (.pstr (String.intercalate "," xs))) := by
  refine ⟨?_, rfl, rfl, fun xs => ⟨rfl, rfl⟩⟩
  intro v hv
  cases v with
  | pstr s => rfl
  | pbool b => cases b <;> rfl
  | plist xs => rfl
  | pnone => exact absurd rfl hv

/-- C6 witness: the amended agreement applied to a concrete list value. -/
theorem C6_witness :
    FilterValue.init (.plist ["a", "b"]) = FilterValue.create (.plist ["a", "b"]) :=
  C6_normalization_amended.1 (.plist ["a", "b"]) (by decide)

/-- C7: the claim states that exclude removes exactly the filters on the
field, has reports membership, and get returns the first match.  In the hexy
Filters collection the comparison puts the FilterField wrapper object against
the raw string, which is never equal, so on a one-element collection has
returns false, get returns none and exclude removes nothing; the src/src
Filters collection, which compares the stored field name, behaves as the
claim states on the same input. -/
theorem C7_hexy_filters_never_match :
    HexyFilters.has [⟨⟨"age"⟩, .EQUAL, "18"⟩] "age" = false ∧
    HexyFilters.get [⟨⟨"age"⟩, .EQUAL, "18"⟩] "age" = none ∧
    HexyFilters.exclude [⟨⟨"age"⟩, .EQUAL, "18"⟩] "age" = [⟨⟨"age"⟩, .EQUAL, "18"⟩] ∧
    Filters.has [⟨"age", .EQUAL, "18"⟩] "age" = true ∧
    Filters.get [⟨"age", .EQUAL, "18"⟩] "age" = some ⟨"age", .EQUAL, "18"⟩ ∧
    Filters.exclude [⟨"age", .EQUAL, "18"⟩] "age" = [] := by
  refine ⟨rfl, rfl, rfl, ?_, ?_, ?_⟩ <;> decide

/-- C8: the claim states that matching on an empty criteria returns the same
set as search_all.  The embedded matching command appends WHERE followed by
the str rendering of the criteria object to the search-all text, so the two
commands always differ; against a backend that answers the well-formed
unfiltered query with its rows, search_all returns the row while matching
returns nothing, whatever string the criteria renders to. -/
theorem C8_matching_empty_not_search_all :
    MySQLRepository.searchAllRows fetchUsersOnly id "users" = [7] ∧
    ∀ criteriaText : String,
      MySQLRepository.matchingRows fetchUsersOnly id "users" criteriaText = [] := by
  constructor
  · rfl
  · intro s
    have hne : ("SELECT * FROM users WHERE " ++ s) ≠ "SELECT * FROM users" := by
      intro h
      have hlen := congrArg String.length h
      simp only [String.length_append] at hlen
      have e1 : "SELECT * FROM users WHERE ".length = 26 := rfl
      have e2 : "SELECT * FROM users".length = 19 := rfl
      omega
    unfold MySQLRepository.matchingRows MySQLRepository.matchingCommand fetchUsersOnly
    simp [hne]

/-- C9 counterexample: the claim states that N concurrent first-uses of a
fresh DataSource trigger exactly one connection-establishment call.  Under
the alternating schedule both tasks pass the if not self._conn check before
either assigns the slot, so both reach connect: two establishment calls occur
and the connection created first is leaked by the second assignment. -/
theorem C9_counterexample :
    dsRun dsInit [false, true, false, true] = ⟨some 2, 2, .done, .done⟩ := rfl

/-- C9 amended: the lazy initialization is an unguarded check-then-set:
sequential first-uses establish the connection exactly once and later uses
reuse it without reconnecting, but interleaved first-uses may each trigger an
establishment call because no mutex or compare-and-set guard protects the
check. -/
theorem C9_lazy_init_amended :
    dsRun dsInit [false, false, true] = ⟨some 1, 1, .done, .done⟩ ∧
    dsRun dsInit [false, false, true, true, false] = ⟨some 1, 1, .done, .done⟩ := by
  exact ⟨rfl, rfl⟩

/-- C10: OrderType.from_value accepts exactly the strings ASC and DESC and
raises InvalidArgumentError on every other string, the member string NONE
included; consequently an Order whose type is NONE can never be produced by
passing a raw order_type string to Order.from_values with a non-empty
order_by, so the unordered Order is reachable only through the Order.none
path. -/
theorem C10_order_type_guarded :
    (∀ s : String, s ≠ "ASC" → s ≠ "DESC" →
      orderTypeFromValue s =
        .error (.invalidArgument ("El tipo de orden " ++ s ++ " es inválido"))) ∧
    (∀ (ob : String) (ot : Option String) (vf : Option (List String)) (o : OrderV),
      orderFromValues (some ob) ot vf = .ok o → o.order_type = .NONE → ob = "") := by
  constructor
  · intro s h1 h2
    simp only [orderTypeFromValue]
    rw [if_neg (by simp [h1]), if_neg (by simp [h2])]
  · intro ob ot vf o hok hnone
    by_cases hob : ob = ""
    · exact hob
    · exfalso
      simp only [orderFromValues] at hok
      rw [if_neg (by simp [hob])] at hok
      set otv := (match ot with
        | none => "ASC"
        | some t => if t == "" then "ASC" else t) with hotv
      rcases hty : orderTypeFromValue otv with e | ty
      · rw [hty] at hok
        simp at hok
      · rw [hty] at hok
        have hne := orderTypeFromValue_not_NONE _ _ hty
        cases vf with
        | none =>
          simp at hok
          subst hok
          exact hne hnone
        | some l =>
          simp only [] at hok
          split_ifs at hok
          all_goals simp at hok
          all_goals (subst hok; exact hne hnone)

/-- C10 witness: from_value applied to the string NONE raises, and the
unordered result arises only from the empty order_by. -/
theorem C10_witness :
    orderTypeFromValue "NONE" =
      .error (.invalidArgument ("El tipo de orden " ++ "NONE" ++ " es inválido")) ∧
    ("" : String) = "" :=
  ⟨C10_order_type_guarded.1 "NONE" (by decide) (by decide),
   C10_order_type_guarded.2 "" (some "NONE") none orderNone rfl rfl⟩

end Hexy
